import Mathlib

/-!
Verification of the format-selection, transcript-selection and retry logic of
`src/core/downloaders/transcriptions/core.py` and
`src/core/downloaders/transcriptions/yt_downloads_utils.py`.

The Python dictionaries produced by the external media-info step are embedded
as structures whose fields are `Option`-valued (a `none` models an absent key
or a stored `None`); the numeric scores computed with Python ints and floats
are embedded as `Int` and `ℚ` (every float arithmetic the scoring code
performs is exact on the rationals involved: divisions by 1024 and 10,
subtractions, comparisons).  Side-effecting code (the retry loops, which call
the network and sleep) is embedded as explicit traces over an oracle giving
each attempt an outcome.
-/

namespace YtDl

/-- A yt-dlp format dictionary, restricted to the keys the selection code
reads.  `none` models an absent key (or a stored `None`). -/
structure Fmt where
  format_id : Option String := none
  ext : Option String := none
  vcodec : Option String := none
  acodec : Option String := none
  format_note : Option String := none
  language : Option String := none
  height : Option Nat := none
  filesize : Option Int := none
  filesize_approx : Option Int := none
deriving Repr, DecidableEq

/-- The audio/video preference dictionary (`preferences` in `core.py`);
a `none` field models an absent key, for which the code supplies a default
via `dict.get`. -/
structure Prefs where
  preferred_quality : Option String := none
  preferred_formats : Option (List String) := none
  max_fallback_attempts : Option Nat := none
deriving Repr, DecidableEq

/-- Python substring containment `needle in hay`. -/
def str_contains (hay needle : String) : Bool :=
  decide (needle.toList <:+: hay.toList)

/-- Python `str.lower()`, character by character. -/
def str_lower (s : String) : String := String.mk (s.toList.map Char.toLower)

/-- Embeds `is_audio_format` (core.py line 44): `vcodec == 'none' and
acodec != 'none'`, where an absent key reads as `None`. -/
def is_audio_format (fmt : Fmt) : Bool :=
  fmt.vcodec == some "none" && fmt.acodec != some "none"

/-- Embeds `is_video_format` (core.py line 47). -/
def is_video_format (fmt : Fmt) : Bool :=
  fmt.vcodec != some "none" && fmt.acodec == some "none"

/-- Embeds the audio branch of `get_quality_score` (core.py lines 69-83). -/
def get_quality_score_audio (fmt : Fmt) (preferred_quality : String) : Int :=
  let note := str_lower (fmt.format_note.getD "")
  if preferred_quality = "high" then
    if str_contains note "high" then 100
    else if str_contains note "medium" then 80
    else if str_contains note "low" then 60
    else 50
  else if preferred_quality = "medium" then
    if str_contains note "medium" then 100
    else if str_contains note "high" then 90
    else if str_contains note "low" then 70
    else 50
  else if preferred_quality = "low" then
    if str_contains note "low" then 100
    else if str_contains note "medium" then 80
    else if str_contains note "high" then 60
    else 50
  else 50

/-- Embeds the video branch of `get_quality_score` (core.py lines 84-100).
The final `max(50 - abs(height - 720) // 100, 10)` is reached whenever no
listed resolution matches. -/
def get_quality_score_video (fmt : Fmt) (preferred_quality : String) : Int :=
  let height : Int := (fmt.height.getD 0 : Nat)
  let fallback : Int := max (50 - (((height - 720).natAbs / 100 : Nat) : Int)) 10
  if preferred_quality = "720p" then
    if height = 720 then 100
    else if height = 480 then 90
    else if height = 1080 then 85
    else if height = 360 then 70
    else fallback
  else if preferred_quality = "1080p" then
    if height = 1080 then 100
    else if height = 720 then 90
    else if height = 480 then 80
    else fallback
  else if preferred_quality = "480p" then
    if height = 480 then 100
    else if height = 360 then 90
    else if height = 720 then 80
    else fallback
  else fallback

/-- Embeds `get_format_score` (core.py lines 103-108): the candidate whose
lowercased extension sits at (first) position N of the preferred list scores
`100 - 10*N`; an extension absent from the list scores 10. -/
def get_format_score (fmt : Fmt) (preferred_formats : List String) : Int :=
  let ext := str_lower (fmt.ext.getD "")
  if ext ∈ preferred_formats then 100 - 10 * (preferred_formats.indexOf ext : Int)
  else 10

/-- A positive stored size, as the exact rational it denotes; `none` when the
key is absent, stores `None`, or stores a non-positive value. -/
def pos_size : Option Int → Option ℚ
  | some v => if 0 < v then some (v : ℚ) else none
  | none => none

/-- Embeds `get_best_filesize` (core.py lines 111-122): exact size first, then
the approximate size, then `float('inf')` — modelled as `none`. -/
def get_best_filesize (fmt : Fmt) : Option ℚ :=
  match pos_size fmt.filesize with
  | some s => some s
  | none => pos_size fmt.filesize_approx

/-- Python `max` on two rationals (computable by the kernel; equal to `max`
on ℚ, see `rat_max_eq_max`). -/
def rat_max (a b : ℚ) : ℚ := if a ≤ b then b else a

/-- Embeds the audio size score (core.py line 154): 100 for an unknown size,
`max(0, 100 - size/1024/1024)` otherwise. -/
def size_score_audio : Option ℚ → ℚ
  | none => 100
  | some s => rat_max 0 (100 - s / 1024 / 1024)

/-- Embeds the video size score (core.py line 197): 100 for an unknown size,
`max(0, 100 - size/1024/1024/10)` otherwise. -/
def size_score_video : Option ℚ → ℚ
  | none => 100
  | some s => rat_max 0 (100 - s / 1024 / 1024 / 10)

/-- One entry of `scored_formats` (core.py lines 158-165). -/
structure ScoredFmt where
  format : Fmt
  total_score : ℚ
  quality_score : Int
  format_score : Int
  size_score : ℚ
  file_size : Option ℚ
deriving Repr, DecidableEq

/-- The loop body of `smart_audio_selection` scoring one format
(core.py lines 148-165). -/
def scoreAudioFmt (preferred_quality : String) (preferred_formats : List String)
    (fmt : Fmt) : ScoredFmt :=
  let quality_score := get_quality_score_audio fmt preferred_quality
  let format_score := get_format_score fmt preferred_formats
  let file_size := get_best_filesize fmt
  let size_score := size_score_audio file_size
  { format := fmt
    total_score := (quality_score : ℚ) * 3 + (format_score : ℚ) * 2 + size_score * 1
    quality_score := quality_score
    format_score := format_score
    size_score := size_score
    file_size := file_size }

/-- The loop body of `smart_video_selection` scoring one format
(core.py lines 191-208). -/
def scoreVideoFmt (preferred_quality : String) (preferred_formats : List String)
    (fmt : Fmt) : ScoredFmt :=
  let quality_score := get_quality_score_video fmt preferred_quality
  let format_score := get_format_score fmt preferred_formats
  let file_size := get_best_filesize fmt
  let size_score := size_score_video file_size
  { format := fmt
    total_score := (quality_score : ℚ) * 3 + (format_score : ℚ) * 2 + size_score * 1
    quality_score := quality_score
    format_score := format_score
    size_score := size_score
    file_size := file_size }

/-- Stable descending insertion: `x` is placed before the first element whose
total score is not strictly greater than its own. -/
def insertDesc (x : ScoredFmt) : List ScoredFmt → List ScoredFmt
  | [] => [x]
  | y :: ys =>
    if x.total_score < y.total_score then y :: insertDesc x ys else x :: y :: ys

/-- Embeds `scored_formats.sort(key=lambda x: x['total_score'], reverse=True)`
(core.py line 170): a stable sort, descending on the total score — Python list
sorting is stable, and `sortDesc` computes exactly the stable descending
reordering (proved below: it permutes the input, orders the scores
descendingly, and preserves the relative order of equal scores). -/
def sortDesc : List ScoredFmt → List ScoredFmt
  | [] => []
  | x :: xs => insertDesc x (sortDesc xs)

/-- The `scored_formats` list built by `smart_audio_selection`
(core.py lines 147-165), before sorting. -/
def audioScored (audio_formats : List Fmt) (preferences : Prefs) : List ScoredFmt :=
  audio_formats.map
    (scoreAudioFmt (preferences.preferred_quality.getD "medium")
      (preferences.preferred_formats.getD ["mp3", "m4a", "webm"]))

/-- The `scored_formats` list of `smart_audio_selection` after the
descending sort (core.py line 170). -/
def audioRanked (audio_formats : List Fmt) (preferences : Prefs) : List ScoredFmt :=
  sortDesc (audioScored audio_formats preferences)

/-- The `scored_formats` list built by `smart_video_selection`
(core.py lines 190-208), before sorting. -/
def videoScored (video_formats : List Fmt) (preferences : Prefs) : List ScoredFmt :=
  video_formats.map
    (scoreVideoFmt (preferences.preferred_quality.getD "720p")
      (preferences.preferred_formats.getD ["mp4", "webm", "mkv"]))

/-- The `scored_formats` list of `smart_video_selection` after the
descending sort (core.py line 213). -/
def videoRanked (video_formats : List Fmt) (preferences : Prefs) : List ScoredFmt :=
  sortDesc (videoScored video_formats preferences)

/-- Embeds `smart_audio_selection` (core.py lines 138-178).  The fallback loop
`for i, candidate in enumerate(scored_formats[:max_attempts])` executes its
body at most once, because the body ends in an unconditional
`return candidate['format']`; when the slice is empty the function falls
through to `audio_formats[0] if audio_formats else None`. -/
def smart_audio_selection (audio_formats : List Fmt) (preferences : Prefs) :
    Option Fmt :=
  match (audioRanked audio_formats preferences).take
      (preferences.max_fallback_attempts.getD 3) with
  | candidate :: _ => some candidate.format
  | [] => audio_formats.head?

/-- The number of iterations the fallback loop of `smart_audio_selection`
executes (each iteration is one logged "fallback attempt", core.py line 174):
one when the sliced ranked list is non-empty, zero otherwise. -/
def smart_audio_selection_attempts (audio_formats : List Fmt)
    (preferences : Prefs) : Nat :=
  match (audioRanked audio_formats preferences).take
      (preferences.max_fallback_attempts.getD 3) with
  | _ :: _ => 1
  | [] => 0

/-- Embeds `smart_video_selection` (core.py lines 181-221). -/
def smart_video_selection (video_formats : List Fmt) (preferences : Prefs) :
    Option Fmt :=
  match (videoRanked video_formats preferences).take
      (preferences.max_fallback_attempts.getD 3) with
  | candidate :: _ => some candidate.format
  | [] => video_formats.head?

/-- Embeds `select_default_audio` (core.py lines 224-255) on the path where a
preferences value is supplied: filter to audio-only formats, return
`(None, [])` when none remain, otherwise select and return the filtered
list. -/
def select_default_audio (formats : List Fmt) (preferences : Prefs) :
    Option Fmt × List Fmt :=
  let audio_formats := formats.filter is_audio_format
  if audio_formats.isEmpty then (none, [])
  else (smart_audio_selection audio_formats preferences, audio_formats)

/-- The number of fallback-loop iterations `select_default_audio` causes:
zero when the filtered list is empty (`smart_audio_selection` is never
called). -/
def select_default_audio_attempts (formats : List Fmt) (preferences : Prefs) :
    Nat :=
  let audio_formats := formats.filter is_audio_format
  if audio_formats.isEmpty then 0
  else smart_audio_selection_attempts audio_formats preferences

/-! Retry wrapper (`yt_downloads_utils.py`).  The external yt-dlp call of
attempt number `k` (0-based) is modelled by an oracle `op k`; the loop state
is the current delay and the number of retries still allowed, and the trace
records how often the operation ran, which waits were performed (in order),
and the final outcome: `Except.ok true` for `return True`, `Except.error`
for the exception raised after exhaustion. -/

/-- The outcome of one wrapped yt-dlp invocation: normal return, or an
exception carrying a message. -/
inductive AttemptResult where
  | ok : AttemptResult
  | error (msg : String) : AttemptResult
deriving Repr, DecidableEq

/-- What one run of a retry loop did. -/
structure RetryTrace where
  calls : Nat
  sleeps : List Nat
  result : Except String Bool
deriving Repr

/-- The common retry loop of `download_audio` (lines 53-70) and
`download_video` (lines 87-104): run the operation; on success return `True`;
on an exception sleep the current delay, double it and try again while
retries remain, else raise the wrapping error built from the last message. -/
def retryRun (op : Nat → AttemptResult) (wrap : String → String) :
    Nat → Nat → Nat → RetryTrace
  | attempt, delay, remaining =>
    match op attempt with
    | .ok => { calls := 1, sleeps := [], result := .ok true }
    | .error msg =>
      match remaining with
      | 0 => { calls := 1, sleeps := [], result := .error (wrap msg) }
      | r + 1 =>
        let t := retryRun op wrap (attempt + 1) (delay * 2) r
        { calls := t.calls + 1, sleeps := delay :: t.sleeps, result := t.result }

/-- Embeds `download_audio` (yt_downloads_utils.py lines 36-72) as its retry
trace over the attempt oracle `op`. -/
def download_audio (op : Nat → AttemptResult) (max_retries retry_delay : Nat) :
    RetryTrace :=
  retryRun op
    (fun msg => "Audio download failed after " ++ toString (max_retries + 1) ++
      " attempts: " ++ msg)
    0 retry_delay max_retries

/-- Embeds `download_video` (yt_downloads_utils.py lines 75-106) as its retry
trace over the attempt oracle `op`. -/
def download_video (op : Nat → AttemptResult) (max_retries retry_delay : Nat) :
    RetryTrace :=
  retryRun op
    (fun msg => "Video download failed after " ++ toString (max_retries + 1) ++
      " attempts: " ++ msg)
    0 retry_delay max_retries

/-- The outcome of one transcript-download attempt body
(yt_downloads_utils.py lines 193-277): success with the returned value,
a `TranscriptsDisabled`/`NoTranscriptFound` exception, or any other
exception. -/
inductive TranscriptAttempt where
  | success (value : String) : TranscriptAttempt
  | disabled (msg : String) : TranscriptAttempt
  | failure (msg : String) : TranscriptAttempt
deriving Repr, DecidableEq

/-- What one run of `download_transcript` did. -/
structure TranscriptTrace where
  calls : Nat
  sleeps : List Nat
  result : Except String String
deriving Repr

/-- The retry loop of `download_transcript` (yt_downloads_utils.py lines
193-292): a `TranscriptsDisabled`/`NoTranscriptFound` exception is re-raised
wrapped, immediately, with no sleep; any other exception is retried with the
doubling delay while retries remain, then re-raised wrapped with the attempt
total. -/
def transcriptRun (op : Nat → TranscriptAttempt) (total : Nat) :
    Nat → Nat → Nat → TranscriptTrace
  | attempt, delay, remaining =>
    match op attempt with
    | .success v => { calls := 1, sleeps := [], result := .ok v }
    | .disabled msg =>
      { calls := 1, sleeps := [],
        result := .error
          ("Transcripts are disabled or not found for this video: " ++ msg) }
    | .failure msg =>
      match remaining with
      | 0 =>
        { calls := 1, sleeps := [],
          result := .error ("Transcript download failed after " ++
            toString total ++ " attempts: " ++ msg) }
      | r + 1 =>
        let t := transcriptRun op total (attempt + 1) (delay * 2) r
        { calls := t.calls + 1, sleeps := delay :: t.sleeps, result := t.result }

/-- Embeds `download_transcript` (yt_downloads_utils.py lines 159-294) as its
retry trace over the attempt oracle `op`. -/
def download_transcript (op : Nat → TranscriptAttempt)
    (max_retries retry_delay : Nat) : TranscriptTrace :=
  transcriptRun op (max_retries + 1) 0 retry_delay max_retries

/-! Transcript metadata and the default-transcript resolver (`core.py`). -/

/-- A transcript object as the external transcript-listing API returns it,
restricted to the attributes `list_transcript_metadata` reads.  It carries no
default flag: the listing computes one. -/
structure ApiTranscript where
  language_code : Option String := none
  language : Option String := none
  is_generated : Bool := false
  is_translatable : Option Bool := none
deriving Repr, DecidableEq

/-- One row of the metadata list (`core.py` lines 355-362), as the resolver
reads it. -/
structure Row where
  language_code : Option String := none
  language : Option String := none
  is_generated : Bool := false
  is_translatable : Option Bool := none
  is_default : Bool := false
deriving Repr, DecidableEq

/-- The `is_default` computation of `list_transcript_metadata` (core.py line
353): `(not is_generated) or (is_generated and language_code in
['en', 'en-US', 'en-GB'])`. -/
def compute_is_default (t : ApiTranscript) : Bool :=
  !t.is_generated ||
    (t.is_generated &&
      (t.language_code == some "en" || t.language_code == some "en-US" ||
        t.language_code == some "en-GB"))

/-- Embeds the per-track body of `list_transcript_metadata` (core.py lines
348-365) over an already-fetched transcript list. -/
def list_transcript_metadata (ts : List ApiTranscript) : List Row :=
  ts.map fun t =>
    { language_code := t.language_code
      language := t.language
      is_generated := t.is_generated
      is_translatable := t.is_translatable
      is_default := compute_is_default t }

/-- The explicit-default scan of `print_and_select_default_transcript`
(core.py lines 401-421): each flagged row overwrites `default_transcript`, so
the scan keeps the last flagged row in input order. -/
def scanDefault (rows : List Row) : Option Row :=
  rows.foldl (fun acc r => if r.is_default then some r else acc) none

/-- Membership of a language code in the English codes list used by the
resolver (core.py line 442). -/
def isEnglishCode (r : Row) : Bool :=
  r.language_code == some "en" || r.language_code == some "en-US" ||
    r.language_code == some "en-GB"

/-- Embeds the selection logic of `print_and_select_default_transcript`
(core.py lines 392-458) over the metadata rows: explicit default flag (last
flagged wins), then the preferred language over manual-then-generated order,
then the first manual track, then an English auto-generated track, then the
first auto-generated track; `none` when no rows exist. -/
def select_default_transcript (rows : List Row)
    (preferred_language : Option String) : Option Row :=
  if rows = [] then none
  else
    let manual := rows.filter fun r => !r.is_generated
    let autoGen := rows.filter fun r => r.is_generated
    match scanDefault rows with
    | some d => some d
    | none =>
      let allT := manual ++ autoGen
      let fromPref :=
        match preferred_language with
        | some lang => allT.find? fun t => t.language_code == some lang
        | none => none
      match fromPref with
      | some t => some t
      | none =>
        match manual with
        | m :: _ => some m
        | [] =>
          match autoGen with
          | [] => none
          | a :: rest =>
            match (a :: rest).find? isEnglishCode with
            | some e => some e
            | none => some a

/-! Relational presentation of the scoring pass, and concrete inputs used by
the closed theorems below. -/

/-- The scoring pass of `smart_audio_selection` as a relation between the
input format list and the built `scored_formats` list: one step per loop
iteration, appending the scores computed from (candidate, preferences)
alone. -/
inductive ScoreAllRel (q : String) (pf : List String) :
    List Fmt → List ScoredFmt → Prop
  | nil : ScoreAllRel q pf [] []
  | cons (fmt : Fmt) (fmts : List Fmt) (scored : List ScoredFmt) :
      ScoreAllRel q pf fmts scored →
      ScoreAllRel q pf (fmt :: fmts) (scoreAudioFmt q pf fmt :: scored)

/-- A video-only format (no audio codec): filtered out by
`is_audio_format`. -/
def videoOnlyFmt : Fmt :=
  { format_id := some "137", ext := some "mp4", vcodec := some "avc1.640028",
    acodec := some "none", height := some 1080 }

/-- An attempt oracle whose first two invocations raise and whose later ones
succeed. -/
def failTwice : Nat → AttemptResult :=
  fun k => if k < 2 then .error "network timeout" else .ok

/-- The manually created Spanish track of the two-track scenario, as the
external transcript-listing API supplies it (it carries no default flag:
`list_transcript_metadata` computes one). -/
def esApi : ApiTranscript :=
  { language_code := some "es", language := some "Spanish",
    is_generated := false, is_translatable := some true }

/-- The auto-generated English track of the two-track scenario, as the
external transcript-listing API supplies it. -/
def enApi : ApiTranscript :=
  { language_code := some "en", language := some "English (auto-generated)",
    is_generated := true, is_translatable := some true }

/-- The metadata row `list_transcript_metadata` computes for `enApi`:
flagged as default, because the track is auto-generated with code "en". -/
def enRowComputed : Row :=
  { language_code := some "en", language := some "English (auto-generated)",
    is_generated := true, is_translatable := some true, is_default := true }

/-- Audio candidate 1: m4a, medium quality note, size unknown. -/
def audioCand1 : Fmt :=
  { format_id := some "140", ext := some "m4a", vcodec := some "none",
    acodec := some "mp4a.40.2", format_note := some "medium" }

/-- Audio candidate 2: m4a, low quality note, size unknown. -/
def audioCand2 : Fmt :=
  { format_id := some "139", ext := some "m4a", vcodec := some "none",
    acodec := some "mp4a.40.5", format_note := some "low" }

/-- Audio candidate 3: webm, medium quality note, size unknown. -/
def audioCand3 : Fmt :=
  { format_id := some "251", ext := some "webm", vcodec := some "none",
    acodec := some "opus", format_note := some "medium" }

/-- Audio candidate 4: webm, low quality note, size unknown. -/
def audioCand4 : Fmt :=
  { format_id := some "250", ext := some "webm", vcodec := some "none",
    acodec := some "opus", format_note := some "low" }

/-- Audio candidate 5: mp3, high quality note, size unknown. -/
def audioCand5 : Fmt :=
  { format_id := some "600", ext := some "mp3", vcodec := some "none",
    acodec := some "mp3", format_note := some "high" }

/-- The five-candidate scenario list of §8 of the spec. -/
def scenarioCands : List Fmt :=
  [audioCand1, audioCand2, audioCand3, audioCand4, audioCand5]

/-- The scenario preferences: medium quality, formats `["mp3","m4a"]`, two
fallback attempts. -/
def scenarioPrefs : Prefs :=
  { preferred_quality := some "medium", preferred_formats := some ["mp3", "m4a"],
    max_fallback_attempts := some 2 }

/-! Theorems. -/

theorem rat_max_eq_max (a b : ℚ) : rat_max a b = max a b := by
  unfold rat_max
  by_cases h : a ≤ b
  · rw [if_pos h, max_eq_right h]
  · rw [if_neg h, max_eq_left (le_of_not_le h)]

theorem insertDesc_perm (x : ScoredFmt) (l : List ScoredFmt) :
    (insertDesc x l).Perm (x :: l) := by
  induction l with
  | nil => exact List.Perm.refl _
  | cons y ys ih =>
    unfold insertDesc
    by_cases h : x.total_score < y.total_score
    · rw [if_pos h]
      exact (ih.cons y).trans (List.Perm.swap x y ys)
    · rw [if_neg h]

theorem sortDesc_perm (l : List ScoredFmt) : (sortDesc l).Perm l := by
  induction l with
  | nil => exact List.Perm.refl _
  | cons x xs ih => exact (insertDesc_perm x (sortDesc xs)).trans (ih.cons x)

theorem insertDesc_pairwise (x : ScoredFmt) (l : List ScoredFmt)
    (h : l.Pairwise fun a b => b.total_score ≤ a.total_score) :
    (insertDesc x l).Pairwise fun a b => b.total_score ≤ a.total_score := by
  induction l with
  | nil => simp [insertDesc]
  | cons y ys ih =>
    rw [List.pairwise_cons] at h
    obtain ⟨hy, hys⟩ := h
    unfold insertDesc
    by_cases hc : x.total_score < y.total_score
    · rw [if_pos hc, List.pairwise_cons]
      refine ⟨fun z hz => ?_, ih hys⟩
      rcases List.mem_cons.mp ((insertDesc_perm x ys).mem_iff.mp hz) with rfl | hz2
      · exact le_of_lt hc
      · exact hy z hz2
    · rw [if_neg hc, List.pairwise_cons]
      refine ⟨fun z hz => ?_, List.pairwise_cons.mpr ⟨hy, hys⟩⟩
      rcases List.mem_cons.mp hz with rfl | hz
      · exact le_of_not_lt hc
      · exact le_trans (hy z hz) (le_of_not_lt hc)

theorem sortDesc_pairwise (l : List ScoredFmt) :
    (sortDesc l).Pairwise fun a b => b.total_score ≤ a.total_score := by
  induction l with
  | nil => simp [sortDesc]
  | cons x xs ih => exact insertDesc_pairwise x (sortDesc xs) ih

theorem insertDesc_filter (x : ScoredFmt) (l : List ScoredFmt) (q : ℚ) :
    (insertDesc x l).filter (fun z => z.total_score == q) =
      (x :: l).filter fun z => z.total_score == q := by
  induction l with
  | nil => rfl
  | cons y ys ih =>
    unfold insertDesc
    by_cases hc : x.total_score < y.total_score
    · rw [if_pos hc]
      by_cases hy : y.total_score = q
      · have hx : ¬x.total_score = q := fun hx => absurd (hx.trans hy.symm) (ne_of_lt hc)
        rw [List.filter_cons_of_pos (by simp [hy]), ih,
          List.filter_cons_of_neg (by simp [hx]), List.filter_cons_of_neg (by simp [hx]),
          List.filter_cons_of_pos (by simp [hy])]
      · rw [List.filter_cons_of_neg (by simp [hy]), ih]
        by_cases hx : x.total_score = q
        · rw [List.filter_cons_of_pos (by simp [hx]), List.filter_cons_of_pos (by simp [hx]),
            List.filter_cons_of_neg (by simp [hy])]
        · rw [List.filter_cons_of_neg (by simp [hx]), List.filter_cons_of_neg (by simp [hx]),
            List.filter_cons_of_neg (by simp [hy])]
    · rw [if_neg hc]

theorem sortDesc_filter (l : List ScoredFmt) (q : ℚ) :
    (sortDesc l).filter (fun z => z.total_score == q) =
      l.filter fun z => z.total_score == q := by
  induction l with
  | nil => rfl
  | cons x xs ih =>
    show (insertDesc x (sortDesc xs)).filter _ = _
    rw [insertDesc_filter]
    by_cases hx : x.total_score = q
    · rw [List.filter_cons_of_pos (by simp [hx]), ih,
        List.filter_cons_of_pos (by simp [hx])]
    · rw [List.filter_cons_of_neg (by simp [hx]), ih,
        List.filter_cons_of_neg (by simp [hx])]

/-- C8: the ranked list `scored_formats` after the sort of
`smart_audio_selection` (core.py line 170) and `smart_video_selection`
(core.py line 213) is a permutation of the scored filtered input, is ordered
by descending total score, and is stable on ties: for every score value, the
candidates carrying that score appear exactly in their original relative
input order. -/
theorem ranked_is_stable_descending_permutation (afs vfs : List Fmt) (p : Prefs) :
    ((audioRanked afs p).Perm (audioScored afs p) ∧
      (audioRanked afs p).Pairwise (fun a b => b.total_score ≤ a.total_score) ∧
      ∀ q : ℚ, (audioRanked afs p).filter (fun z => z.total_score == q) =
        (audioScored afs p).filter fun z => z.total_score == q) ∧
    ((videoRanked vfs p).Perm (videoScored vfs p) ∧
      (videoRanked vfs p).Pairwise (fun a b => b.total_score ≤ a.total_score) ∧
      ∀ q : ℚ, (videoRanked vfs p).filter (fun z => z.total_score == q) =
        (videoScored vfs p).filter fun z => z.total_score == q) :=
  ⟨⟨sortDesc_perm _, sortDesc_pairwise _, fun q => sortDesc_filter _ q⟩,
    ⟨sortDesc_perm _, sortDesc_pairwise _, fun q => sortDesc_filter _ q⟩⟩

/-- C4: a candidate with unknown best file size has size score exactly 100
under both the audio and the video scoring; a known size `s` (in bytes)
scores `max(0, 100 - s_in_MB)` as audio and `max(0, 100 - s_in_MB/10)` as
video; and the total score is exactly `3*quality + 2*format + 1*size` for
both scorings. -/
theorem size_and_total_score_spec (fmt : Fmt) (q : String) (pf : List String)
    (s : ℚ) :
    (get_best_filesize fmt = none →
      size_score_audio (get_best_filesize fmt) = 100 ∧
      size_score_video (get_best_filesize fmt) = 100) ∧
    (get_best_filesize fmt = some s →
      size_score_audio (get_best_filesize fmt) = max 0 (100 - s / 1024 / 1024) ∧
      size_score_video (get_best_filesize fmt) =
        max 0 (100 - s / 1024 / 1024 / 10)) ∧
    ((scoreAudioFmt q pf fmt).total_score =
      3 * ((scoreAudioFmt q pf fmt).quality_score : ℚ) +
        2 * ((scoreAudioFmt q pf fmt).format_score : ℚ) +
        1 * (scoreAudioFmt q pf fmt).size_score) ∧
    ((scoreVideoFmt q pf fmt).total_score =
      3 * ((scoreVideoFmt q pf fmt).quality_score : ℚ) +
        2 * ((scoreVideoFmt q pf fmt).format_score : ℚ) +
        1 * (scoreVideoFmt q pf fmt).size_score) := by
  refine ⟨fun h => ?_, fun h => ?_, ?_, ?_⟩
  · rw [h]; exact ⟨rfl, rfl⟩
  · rw [h]
    exact ⟨rat_max_eq_max 0 (100 - s / 1024 / 1024),
      rat_max_eq_max 0 (100 - s / 1024 / 1024 / 10)⟩
  · simp only [scoreAudioFmt]
    ring
  · simp only [scoreVideoFmt]
    ring

/-- C5: a candidate whose (lowercased) extension first occurs at 0-indexed
position N of the preferred-format list has format score `100 - 10*N`; a
candidate whose extension is absent from the list has format score 10. -/
theorem format_score_spec (fmt : Fmt) (pf : List String) (N : Nat) :
    (str_lower (fmt.ext.getD "") ∈ pf →
      pf.indexOf (str_lower (fmt.ext.getD "")) = N →
      get_format_score fmt pf = 100 - 10 * (N : Int)) ∧
    (str_lower (fmt.ext.getD "") ∉ pf → get_format_score fmt pf = 10) := by
  constructor
  · intro hmem hidx
    unfold get_format_score
    rw [if_pos hmem, hidx]
  · intro hmem
    unfold get_format_score
    rw [if_neg hmem]

/-- C2 (evaluation at the failing input): on the track list `[es manual,
en auto-generated]` with preferred language "fr", the program flags both
tracks as default — `list_transcript_metadata` computes `is_default` itself
(core.py line 353), true for every manual track and for generated English —
and the explicit-default scan keeps the last flagged row, so the composed
pipeline returns the auto-generated "en" track, not the manual "es" track
the claim requires. -/
theorem resolver_returns_last_flagged_en :
    (list_transcript_metadata [esApi, enApi]).map Row.is_default =
      [true, true] ∧
    select_default_transcript (list_transcript_metadata [esApi, enApi])
        (some "fr") = some enRowComputed := by
  decide

theorem scanDefault_aux (rows : List Row) (init : Option Row) :
    rows.foldl (fun acc r => if r.is_default then some r else acc) init =
      match (rows.filter fun r => r.is_default).getLast? with
      | some x => some x
      | none => init := by
  induction rows using List.reverseRecOn generalizing init with
  | nil => rfl
  | append_singleton rs r ih =>
    rw [List.foldl_append, List.foldl_cons, List.foldl_nil, List.filter_append]
    by_cases h : r.is_default
    · rw [if_pos h, List.filter_cons_of_pos (by simp [h]), List.filter_nil,
        List.getLast?_concat]
    · rw [if_neg h, List.filter_cons_of_neg (by simp [h]), List.filter_nil,
        List.append_nil, ih]

/-- C10: the `is_default` field of every metadata row is computed by
`list_transcript_metadata`, true exactly when the track is not
auto-generated or is auto-generated with language code en, en-US or en-GB
(so every manual track is flagged); and the explicit-default scan of the
resolver keeps the last flagged row in input order. -/
theorem is_default_computed_last_flag_wins (t : ApiTranscript)
    (ts : List ApiTranscript) (rows : List Row) :
    (compute_is_default t = true ↔
      (t.is_generated = false ∨
        t.language_code ∈ [some "en", some "en-US", some "en-GB"])) ∧
    ((list_transcript_metadata ts).map Row.is_default =
      ts.map compute_is_default) ∧
    (t.is_generated = false → compute_is_default t = true) ∧
    (scanDefault rows = (rows.filter fun r => r.is_default).getLast?) := by
  refine ⟨?_, ?_, ?_, ?_⟩
  · unfold compute_is_default
    cases hg : t.is_generated <;> simp [hg, or_assoc]
  · simp [list_transcript_metadata, Function.comp_def]
  · intro h
    unfold compute_is_default
    rw [h]
    rfl
  · rw [scanDefault, scanDefault_aux]
    cases (rows.filter fun r => r.is_default).getLast? <;> rfl

/-- C6: when the media-kind filter leaves no audio candidate,
`select_default_audio` returns the no-candidate outcome `(None, [])` at once
and the fallback loop of `smart_audio_selection` runs zero iterations (no
download attempt is made). -/
theorem empty_filter_no_candidate (formats : List Fmt) (p : Prefs)
    (h : formats.filter is_audio_format = []) :
    select_default_audio formats p = (none, []) ∧
    select_default_audio_attempts formats p = 0 := by
  constructor
  · unfold select_default_audio
    simp [h]
  · unfold select_default_audio_attempts
    simp [h]

theorem empty_filter_no_candidate_witness :
    [videoOnlyFmt].filter is_audio_format = [] ∧
    (select_default_audio [videoOnlyFmt] {} = (none, []) ∧
      select_default_audio_attempts [videoOnlyFmt] {} = 0) :=
  ⟨by decide, empty_filter_no_candidate [videoOnlyFmt] {} (by decide)⟩

theorem ScoreAllRel_deterministic (q : String) (pf : List String)
    (fmts : List Fmt) (l₁ l₂ : List ScoredFmt)
    (h₁ : ScoreAllRel q pf fmts l₁) (h₂ : ScoreAllRel q pf fmts l₂) :
    l₁ = l₂ := by
  induction h₁ generalizing l₂ with
  | nil => cases h₂; rfl
  | cons fmt fmts scored hrel ih =>
    cases h₂ with
    | cons _ _ scored2 hrel2 => rw [ih scored2 hrel2]

theorem ScoreAllRel_total (q : String) (pf : List String) (fmts : List Fmt) :
    ScoreAllRel q pf fmts (fmts.map (scoreAudioFmt q pf)) := by
  induction fmts with
  | nil => exact ScoreAllRel.nil
  | cons fmt fmts ih => exact ScoreAllRel.cons fmt fmts _ ih

/-- C9: scoring is a deterministic function of (candidate, preferences): the
scoring pass relation admits exactly one output for a given input list, and
the pass of `smart_audio_selection` realises it; moreover selection does not
mutate the candidate records or the candidate list — each scored entry
carries its input record unchanged, in input order, and
`select_default_audio` hands back the filtered input list itself. -/
theorem scoring_deterministic_no_mutation (p : Prefs)
    (formats fmts : List Fmt) :
    (∀ l₁ l₂ : List ScoredFmt,
      ScoreAllRel (p.preferred_quality.getD "medium")
        (p.preferred_formats.getD ["mp3", "m4a", "webm"]) fmts l₁ →
      ScoreAllRel (p.preferred_quality.getD "medium")
        (p.preferred_formats.getD ["mp3", "m4a", "webm"]) fmts l₂ →
      l₁ = l₂) ∧
    ScoreAllRel (p.preferred_quality.getD "medium")
      (p.preferred_formats.getD ["mp3", "m4a", "webm"]) fmts
      (audioScored fmts p) ∧
    ((audioScored fmts p).map ScoredFmt.format = fmts) ∧
    ((select_default_audio formats p).2 = formats.filter is_audio_format) := by
  refine ⟨fun l₁ l₂ h₁ h₂ => ScoreAllRel_deterministic _ _ _ _ _ h₁ h₂,
    ScoreAllRel_total _ _ _, ?_, ?_⟩
  · simp [audioScored, List.map_map, Function.comp_def, scoreAudioFmt]
  · unfold select_default_audio
    by_cases h : (formats.filter is_audio_format).isEmpty
    · simp only [h, if_pos]
      rw [List.isEmpty_iff] at h
      rw [h]
    · simp only [h, if_neg, Bool.false_eq_true, not_false_iff]

theorem retryRun_ok (op : Nat → AttemptResult) (wrap : String → String)
    (attempt delay remaining : Nat) (h : op attempt = .ok) :
    retryRun op wrap attempt delay remaining =
      { calls := 1, sleeps := [], result := .ok true } := by
  cases remaining <;> (unfold retryRun; rw [h])

theorem retryRun_error_zero (op : Nat → AttemptResult) (wrap : String → String)
    (attempt delay : Nat) (msg : String) (h : op attempt = .error msg) :
    retryRun op wrap attempt delay 0 =
      { calls := 1, sleeps := [], result := .error (wrap msg) } := by
  unfold retryRun; rw [h]

theorem retryRun_error_succ (op : Nat → AttemptResult) (wrap : String → String)
    (attempt delay : Nat) (msg : String) (r : Nat) (h : op attempt = .error msg) :
    retryRun op wrap attempt delay (r + 1) =
      { calls := (retryRun op wrap (attempt + 1) (delay * 2) r).calls + 1,
        sleeps := delay :: (retryRun op wrap (attempt + 1) (delay * 2) r).sleeps,
        result := (retryRun op wrap (attempt + 1) (delay * 2) r).result } := by
  conv_lhs => unfold retryRun
  rw [h]

theorem doubling_map (delay : Nat) :
    (fun i : Nat => 2 ^ i * (delay * 2)) = fun i : Nat => 2 ^ (i + 1) * delay := by
  funext i
  rw [pow_succ]
  ring

theorem retryRun_spec (op : Nat → AttemptResult) (wrap : String → String)
    (remaining : Nat) : ∀ attempt delay : Nat,
    (retryRun op wrap attempt delay remaining).calls ≤ remaining + 1 ∧
    (retryRun op wrap attempt delay remaining).sleeps =
      (List.range (retryRun op wrap attempt delay remaining).sleeps.length).map
        fun i => 2 ^ i * delay := by
  induction remaining with
  | zero =>
    intro attempt delay
    cases hop : op attempt with
    | ok => rw [retryRun_ok op wrap attempt delay 0 hop]; exact ⟨le_refl 1, rfl⟩
    | error msg =>
      rw [retryRun_error_zero op wrap attempt delay msg hop]
      exact ⟨le_refl 1, rfl⟩
  | succ r ih =>
    intro attempt delay
    cases hop : op attempt with
    | ok =>
      rw [retryRun_ok op wrap attempt delay (r + 1) hop]
      exact ⟨by simp, rfl⟩
    | error msg =>
      obtain ⟨hc, hs⟩ := ih (attempt + 1) (delay * 2)
      rw [retryRun_error_succ op wrap attempt delay msg r hop]
      refine ⟨Nat.succ_le_succ hc, ?_⟩
      show _ :: _ = (List.range (_ :: _).length).map _
      rw [List.length_cons, List.range_succ_eq_map, List.map_cons, List.map_map]
      rw [pow_zero, one_mul]
      refine congrArg (delay :: ·) ?_
      conv_lhs => rw [hs, doubling_map]
      simp [Function.comp_def]

/-- C3: for every attempt oracle, every number of retries and every positive
initial delay, both retry wrappers (`download_audio` and `download_video`)
invoke the wrapped operation at most `max_retries + 1` times, and the waits
between consecutive attempts form the doubling sequence `d, 2d, 4d, ...`:
the i-th wait is exactly `2^i * d`, each wait double the previous one,
starting from the initial delay. -/
theorem retry_call_bound_and_backoff (opA opV : Nat → AttemptResult)
    (max_retries d : Nat) (h : 0 < d) :
    ((download_audio opA max_retries d).calls ≤ max_retries + 1 ∧
      ∀ i, i < (download_audio opA max_retries d).sleeps.length →
        (download_audio opA max_retries d).sleeps[i]? = some (2 ^ i * d)) ∧
    ((download_video opV max_retries d).calls ≤ max_retries + 1 ∧
      ∀ i, i < (download_video opV max_retries d).sleeps.length →
        (download_video opV max_retries d).sleeps[i]? = some (2 ^ i * d)) := by
  obtain ⟨hcA, hsA⟩ := retryRun_spec opA
    (fun msg => "Audio download failed after " ++ toString (max_retries + 1) ++
      " attempts: " ++ msg) max_retries 0 d
  obtain ⟨hcV, hsV⟩ := retryRun_spec opV
    (fun msg => "Video download failed after " ++ toString (max_retries + 1) ++
      " attempts: " ++ msg) max_retries 0 d
  refine ⟨⟨hcA, fun i hi => ?_⟩, ⟨hcV, fun i hi => ?_⟩⟩
  · conv_lhs => rw [show (download_audio opA max_retries d).sleeps = _ from hsA]
    rw [List.getElem?_map, List.getElem?_range (by simpa using hi)]
    rfl
  · conv_lhs => rw [show (download_video opV max_retries d).sleeps = _ from hsV]
    rw [List.getElem?_map, List.getElem?_range (by simpa using hi)]
    rfl

theorem retry_call_bound_and_backoff_witness :
    0 < 2 ∧ (download_audio failTwice 3 2).calls ≤ 4 ∧
      (download_video failTwice 3 2).calls ≤ 4 :=
  ⟨by decide,
    (retry_call_bound_and_backoff failTwice failTwice 3 2 (by decide)).1.1,
    (retry_call_bound_and_backoff failTwice failTwice 3 2 (by decide)).2.1⟩

theorem transcriptRun_success (op : Nat → TranscriptAttempt) (total : Nat)
    (attempt delay remaining : Nat) (v : String) (h : op attempt = .success v) :
    transcriptRun op total attempt delay remaining =
      { calls := 1, sleeps := [], result := .ok v } := by
  cases remaining <;> (unfold transcriptRun; rw [h])

theorem transcriptRun_disabled (op : Nat → TranscriptAttempt) (total : Nat)
    (attempt delay remaining : Nat) (msg : String)
    (h : op attempt = .disabled msg) :
    transcriptRun op total attempt delay remaining =
      { calls := 1, sleeps := [],
        result := .error
          ("Transcripts are disabled or not found for this video: " ++ msg) } := by
  cases remaining <;> (unfold transcriptRun; rw [h])

theorem transcriptRun_failure_zero (op : Nat → TranscriptAttempt) (total : Nat)
    (attempt delay : Nat) (msg : String) (h : op attempt = .failure msg) :
    transcriptRun op total attempt delay 0 =
      { calls := 1, sleeps := [],
        result := .error ("Transcript download failed after " ++ toString total ++
          " attempts: " ++ msg) } := by
  unfold transcriptRun; rw [h]

theorem transcriptRun_failure_succ (op : Nat → TranscriptAttempt) (total : Nat)
    (attempt delay : Nat) (msg : String) (r : Nat)
    (h : op attempt = .failure msg) :
    transcriptRun op total attempt delay (r + 1) =
      { calls := (transcriptRun op total (attempt + 1) (delay * 2) r).calls + 1,
        sleeps := delay :: (transcriptRun op total (attempt + 1) (delay * 2) r).sleeps,
        result := (transcriptRun op total (attempt + 1) (delay * 2) r).result } := by
  conv_lhs => unfold transcriptRun
  rw [h]

theorem transcriptRun_disabled_after_failures (op : Nat → TranscriptAttempt)
    (total : Nat) (msgs : Nat → String) (msg : String) (k : Nat) :
    ∀ attempt delay remaining : Nat,
    (∀ j, j < k → op (attempt + j) = .failure (msgs (attempt + j))) →
    op (attempt + k) = .disabled msg → k ≤ remaining →
    (transcriptRun op total attempt delay remaining).calls = k + 1 ∧
    (transcriptRun op total attempt delay remaining).sleeps.length = k ∧
    (transcriptRun op total attempt delay remaining).result =
      .error ("Transcripts are disabled or not found for this video: " ++ msg) := by
  induction k with
  | zero =>
    intro attempt delay remaining _ hdis _
    rw [transcriptRun_disabled op total attempt delay remaining msg
      (by simpa using hdis)]
    exact ⟨rfl, rfl, rfl⟩
  | succ k ih =>
    intro attempt delay remaining hfail hdis hk
    cases remaining with
    | zero => exact absurd hk (by omega)
    | succ r =>
      have h0 : op attempt = .failure (msgs attempt) := by
        have := hfail 0 (by omega)
        simpa using this
      rw [transcriptRun_failure_succ op total attempt delay (msgs attempt) r h0]
      have hshift : ∀ j, j < k →
          op (attempt + 1 + j) = .failure (msgs (attempt + 1 + j)) := by
        intro j hj
        have heq : attempt + 1 + j = attempt + (j + 1) := by omega
        rw [heq]
        exact hfail (j + 1) (by omega)
      have hdis2 : op (attempt + 1 + k) = .disabled msg := by
        have heq : attempt + 1 + k = attempt + (k + 1) := by omega
        rw [heq]
        exact hdis
      obtain ⟨hc, hl, hr⟩ := ih (attempt + 1) (delay * 2) r hshift hdis2 (by omega)
      exact ⟨by simpa using hc, by simpa using hl, hr⟩

theorem transcriptRun_all_failures (op : Nat → TranscriptAttempt)
    (total : Nat) (msgs : Nat → String) (hfail : ∀ j, op j = .failure (msgs j)) :
    ∀ remaining attempt delay : Nat,
    (transcriptRun op total attempt delay remaining).calls = remaining + 1 ∧
    (transcriptRun op total attempt delay remaining).result =
      .error ("Transcript download failed after " ++ toString total ++
        " attempts: " ++ msgs (attempt + remaining)) := by
  intro remaining
  induction remaining with
  | zero =>
    intro attempt delay
    rw [transcriptRun_failure_zero op total attempt delay (msgs attempt)
      (hfail attempt)]
    exact ⟨rfl, by rw [Nat.add_zero]⟩
  | succ r ih =>
    intro attempt delay
    rw [transcriptRun_failure_succ op total attempt delay (msgs attempt) r
      (hfail attempt)]
    obtain ⟨hc, hr⟩ := ih (attempt + 1) (delay * 2)
    refine ⟨by simpa using hc, ?_⟩
    show (transcriptRun op total (attempt + 1) (delay * 2) r).result = _
    rw [hr]
    have heq : attempt + 1 + r = attempt + (r + 1) := by omega
    rw [heq]

/-- C7: the transcript retry wrapper propagates a non-retryable signal
(`TranscriptsDisabled` / `NoTranscriptFound`) immediately: after k retryable
failures followed by a non-retryable signal it has made exactly k+1 calls and
k backoff sleeps (none after the signal) and surfaces the wrapped error at
once; whereas when every attempt raises a retryable error it makes exactly
`max_retries + 1` calls and then surfaces a failure carrying the last
error message. -/
theorem transcript_nonretryable_immediate_and_exhaustion
    (op : Nat → TranscriptAttempt) (max_retries d k : Nat) (msg : String)
    (msgs : Nat → String) :
    ((∀ j, j < k → op j = .failure (msgs j)) → op k = .disabled msg →
      k ≤ max_retries →
      (download_transcript op max_retries d).calls = k + 1 ∧
      (download_transcript op max_retries d).sleeps.length = k ∧
      (download_transcript op max_retries d).result =
        .error ("Transcripts are disabled or not found for this video: " ++ msg)) ∧
    ((∀ j, op j = .failure (msgs j)) →
      (download_transcript op max_retries d).calls = max_retries + 1 ∧
      (download_transcript op max_retries d).result =
        .error ("Transcript download failed after " ++
          toString (max_retries + 1) ++ " attempts: " ++ msgs max_retries)) := by
  constructor
  · intro hfail hdis hk
    exact transcriptRun_disabled_after_failures op (max_retries + 1) msgs msg k
      0 d max_retries (fun j hj => by simpa using hfail j hj) (by simpa using hdis)
      hk
  · intro hfail
    obtain ⟨hc, hr⟩ := transcriptRun_all_failures op (max_retries + 1) msgs hfail
      max_retries 0 d
    exact ⟨hc, by simpa using hr⟩

/-- C1 (evaluation at the failing input): on the five-candidate scenario with
`max_fallback_attempts = 2`, the fallback loop of `smart_audio_selection`
executes exactly one iteration and returns the top-ranked candidate
unconditionally.  The function takes no attempt callback at all, so a failing
first download can never lead to the second-ranked candidate being tried; the
claimed try-top-2-until-success behaviour has no counterpart in the code. -/
theorem fallback_loop_returns_first_unconditionally :
    smart_audio_selection scenarioCands scenarioPrefs = some audioCand1 ∧
    smart_audio_selection_attempts scenarioCands scenarioPrefs = 1 := by
  have e1 : scoreAudioFmt "medium" ["mp3", "m4a"] audioCand1 =
      { format := audioCand1, total_score := 580, quality_score := 100,
        format_score := 90, size_score := 100, file_size := none } := by
    have q : get_quality_score_audio audioCand1 "medium" = 100 := by decide
    have f : get_format_score audioCand1 ["mp3", "m4a"] = 90 := by decide
    have b : get_best_filesize audioCand1 = none := by decide
    simp only [scoreAudioFmt, q, f, b, size_score_audio]
    norm_num
  have e2 : scoreAudioFmt "medium" ["mp3", "m4a"] audioCand2 =
      { format := audioCand2, total_score := 490, quality_score := 70,
        format_score := 90, size_score := 100, file_size := none } := by
    have q : get_quality_score_audio audioCand2 "medium" = 70 := by decide
    have f : get_format_score audioCand2 ["mp3", "m4a"] = 90 := by decide
    have b : get_best_filesize audioCand2 = none := by decide
    simp only [scoreAudioFmt, q, f, b, size_score_audio]
    norm_num
  have e3 : scoreAudioFmt "medium" ["mp3", "m4a"] audioCand3 =
      { format := audioCand3, total_score := 420, quality_score := 100,
        format_score := 10, size_score := 100, file_size := none } := by
    have q : get_quality_score_audio audioCand3 "medium" = 100 := by decide
    have f : get_format_score audioCand3 ["mp3", "m4a"] = 10 := by decide
    have b : get_best_filesize audioCand3 = none := by decide
    simp only [scoreAudioFmt, q, f, b, size_score_audio]
    norm_num
  have e4 : scoreAudioFmt "medium" ["mp3", "m4a"] audioCand4 =
      { format := audioCand4, total_score := 330, quality_score := 70,
        format_score := 10, size_score := 100, file_size := none } := by
    have q : get_quality_score_audio audioCand4 "medium" = 70 := by decide
    have f : get_format_score audioCand4 ["mp3", "m4a"] = 10 := by decide
    have b : get_best_filesize audioCand4 = none := by decide
    simp only [scoreAudioFmt, q, f, b, size_score_audio]
    norm_num
  have e5 : scoreAudioFmt "medium" ["mp3", "m4a"] audioCand5 =
      { format := audioCand5, total_score := 570, quality_score := 90,
        format_score := 100, size_score := 100, file_size := none } := by
    have q : get_quality_score_audio audioCand5 "medium" = 90 := by decide
    have f : get_format_score audioCand5 ["mp3", "m4a"] = 100 := by decide
    have b : get_best_filesize audioCand5 = none := by decide
    simp only [scoreAudioFmt, q, f, b, size_score_audio]
    norm_num
  have hscored : audioScored scenarioCands scenarioPrefs =
      [{ format := audioCand1, total_score := 580, quality_score := 100,
          format_score := 90, size_score := 100, file_size := none },
        { format := audioCand2, total_score := 490, quality_score := 70,
          format_score := 90, size_score := 100, file_size := none },
        { format := audioCand3, total_score := 420, quality_score := 100,
          format_score := 10, size_score := 100, file_size := none },
        { format := audioCand4, total_score := 330, quality_score := 70,
          format_score := 10, size_score := 100, file_size := none },
        { format := audioCand5, total_score := 570, quality_score := 90,
          format_score := 100, size_score := 100, file_size := none }] := by
    simp only [audioScored, scenarioCands, scenarioPrefs, Option.getD_some,
      List.map, e1, e2, e3, e4, e5]
  have hranked : audioRanked scenarioCands scenarioPrefs =
      [{ format := audioCand1, total_score := 580, quality_score := 100,
          format_score := 90, size_score := 100, file_size := none },
        { format := audioCand5, total_score := 570, quality_score := 90,
          format_score := 100, size_score := 100, file_size := none },
        { format := audioCand2, total_score := 490, quality_score := 70,
          format_score := 90, size_score := 100, file_size := none },
        { format := audioCand3, total_score := 420, quality_score := 100,
          format_score := 10, size_score := 100, file_size := none },
        { format := audioCand4, total_score := 330, quality_score := 70,
          format_score := 10, size_score := 100, file_size := none }] := by
    rw [audioRanked, hscored]
    norm_num [sortDesc, insertDesc]
  have hmax : scenarioPrefs.max_fallback_attempts = some 2 := rfl
  constructor
  · simp only [smart_audio_selection, hmax, Option.getD_some, hranked]
    rfl
  · simp only [smart_audio_selection_attempts, hmax, Option.getD_some, hranked]
    rfl

end YtDl
